import Mathlib

/- Verification of the jockey repository's query and filter engine.

   This file shallowly embeds the code of `src/jockey/utils.py`,
   `src/jockey/filters.py` and `src/jockey/juju_types.py`:

   * Python strings are modelled as `List Char`;
   * Python dicts are association lists (unique keys, insertion order);
   * a raised Python exception is an `Except PyErr` error value;
   * a Python generator is modelled by the list of values it yields, and
     where the source relies on the one-shot, lazily-consumed nature of a
     generator (`filter_units`'s IP check), that consumption is modelled
     explicitly (`anyConsume` / `allAnyGen`). -/

/-- Convert a Lean string literal to the `List Char` representation used for
Python strings throughout this file. -/
def chars (s : String) : List Char := s.data

/-- Kinds of Python exceptions raised by the embedded code.  An `assert`
statement failing raises `assertionError`; a missing dict key raises
`keyError`; unpacking a list of the wrong length raises `valueError`;
calling a method on `None` raises `attributeError`; `x in None` raises
`typeError`. -/
inductive PyErr where
  | assertionError : PyErr
  | keyError : PyErr
  | valueError : PyErr
  | attributeError : PyErr
  | typeError : PyErr
  deriving DecidableEq, Repr

/-- Python `str.lower` on a single character (ASCII range, which is all the
code's alias tables use). -/
def pyCharLower (c : Char) : Char :=
  if 65 ≤ c.toNat ∧ c.toNat ≤ 90 then Char.ofNat (c.toNat + 32) else c

/-- Python `str.lower`. -/
def pyLower (s : List Char) : List Char := s.map pyCharLower

/-- Python substring test `p in s` (contiguous substring; empty `p` matches). -/
def isSubstr (p : List Char) : List Char → Bool
  | [] => p.isEmpty
  | c :: rest => p.isPrefixOf (c :: rest) || isSubstr p rest

/-- Python `s.split(sep)`: `"a/b".split("/") == ["a","b"]`, `"".split("/") == [""]`. -/
def pySplit (sep : Char) : List Char → List (List Char)
  | [] => [[]]
  | c :: rest =>
    match pySplit sep rest with
    | [] => [[]]
    | h :: t => if c == sep then [] :: h :: t else (c :: h) :: t

/-- Python dict lookup `d[k]` as an `Option` (a `none` is the caller's
`KeyError` site).  Dicts are association lists with unique keys. -/
def pyGet {α : Type} (d : List (List Char × α)) (k : List Char) : Option α :=
  (d.find? (fun p => p.1 == k)).map (fun p => p.2)

/-- `utils.FilterMode` (`src/jockey/utils.py`, lines 32-37). -/
inductive FilterMode where
  | EQUALS | CONTAINS | NOT_EQUALS | NOT_CONTAINS
  deriving DecidableEq, Repr

/-- Each `FilterMode`'s `value` string. -/
def FilterMode.value : FilterMode → List Char
  | .EQUALS => chars ("=")
  | .CONTAINS => chars ("~")
  | .NOT_EQUALS => chars ("^=")
  | .NOT_CONTAINS => chars ("^~")

/-- The members of the `FilterMode` enum, in declaration order. -/
def filterModeList : List FilterMode := [.EQUALS, .CONTAINS, .NOT_EQUALS, .NOT_CONTAINS]

/-- `juju_types.ObjectType` (`src/jockey/juju_types.py`, lines 36-42). -/
inductive ObjectType where
  | CHARM | APP | UNIT | MACHINE | IP | HOSTNAME
  deriving DecidableEq, Repr

/-- Each `ObjectType`'s alias tuple `value`. -/
def ObjectType.value : ObjectType → List (List Char)
  | .CHARM => [chars ("charms"), chars ("charm"), chars ("c")]
  | .APP => [chars ("app"), chars ("apps"), chars ("application"),
             chars ("applications"), chars ("a")]
  | .UNIT => [chars ("units"), chars ("unit"), chars ("u")]
  | .MACHINE => [chars ("machines"), chars ("machine"), chars ("m")]
  | .IP => [chars ("address"), chars ("addresses"), chars ("ips"),
            chars ("ip"), chars ("i")]
  | .HOSTNAME => [chars ("hostnames"), chars ("hostname"), chars ("host"),
                  chars ("hosts"), chars ("h")]

/-- The members of the `ObjectType` enum, in declaration order. -/
def objectTypeList : List ObjectType := [.CHARM, .APP, .UNIT, .MACHINE, .IP, .HOSTNAME]

/-- `utils.convert_object_abbreviation` (`src/jockey/utils.py`, lines 39-57):
lowercase the abbreviation, return the first `ObjectType` whose alias tuple
contains it (tuple membership, i.e. string equality with one alias). -/
def convert_object_abbreviation (ab : List Char) : Option ObjectType :=
  objectTypeList.find? (fun t => (ObjectType.value t).contains (pyLower ab))

/-- `utils.JockeyFilter` (`src/jockey/utils.py`, lines 60-64). -/
structure JockeyFilter where
  obj_type : ObjectType
  mode : FilterMode
  content : List Char
  deriving DecidableEq, Repr

/-- Character class of the regex `[=^~]+` used by `utils.parse_filter_string`. -/
def isOpChar (c : Char) : Bool := c == '=' || c == '^' || c == '~'

/-- Helper for `countRuns`: the Bool argument records whether the previous
character was an operator character. -/
def countRunsAux : List Char → Bool → Nat
  | [], _ => 0
  | c :: rest, prevOp =>
    (if isOpChar c && !prevOp then 1 else 0) + countRunsAux rest (isOpChar c)

/-- Number of maximal runs of operator characters in the string: the length of
`re.findall(r"[=^~]+", s)`. -/
def countRuns (s : List Char) : Nat := countRunsAux s false

/-- `re.search(r"[=^~]+", s)` decomposed: the text before the first maximal
operator run, the run itself (`match.group()`), and the text after it
(`s[match.end():]`); `none` when the string has no operator character. -/
def splitFirstRun : List Char → Option (List Char × List Char × List Char)
  | [] => none
  | c :: rest =>
    if isOpChar c then
      some ([], (c :: rest).takeWhile isOpChar, (c :: rest).dropWhile isOpChar)
    else
      match splitFirstRun rest with
      | none => none
      | some (b, r, a) => some (c :: b, r, a)

/-- The `char_blacklist` tuple of `utils.parse_filter_string` (line 102). -/
def char_blacklist : List Char := ['_', ':', ';', '\\', '\t', '\n', ',']

/-- Final checks of `utils.parse_filter_string` (lines 99-107): the content
must be non-empty and contain no blacklisted character. -/
def parse_filter_content (object_type : ObjectType) (filter_mode : FilterMode)
    (content : List Char) : Except PyErr JockeyFilter :=
  if content.isEmpty then .error .assertionError
  else if content.any (fun c => char_blacklist.contains c) then .error .assertionError
  else .ok { obj_type := object_type, mode := filter_mode, content := content }

/-- Filter-mode check of `utils.parse_filter_string` (lines 94-97): the
operator run (`match.group()`) must equal the `value` of some `FilterMode`. -/
def parse_filter_mode (object_type : ObjectType) (run content : List Char) :
    Except PyErr JockeyFilter :=
  match filterModeList.find? (fun m => FilterMode.value m == run) with
  | none => .error .assertionError
  | some filter_mode => parse_filter_content object_type filter_mode content

/-- Object-type check of `utils.parse_filter_string` (lines 91-92): the prefix
before the operator run must resolve through the alias table. -/
def parse_filter_parts (before run content : List Char) : Except PyErr JockeyFilter :=
  match convert_object_abbreviation before with
  | none => .error .assertionError
  | some object_type => parse_filter_mode object_type run content

/-- `utils.parse_filter_string` (`src/jockey/utils.py`, lines 67-107).  Each
failing `assert` raises `assertionError`.  The checks run in source order:
exactly one operator run, known object type, known filter mode, non-empty
content, no blacklisted character in the content (the later stages are the
staged helpers above).  The `splitFirstRun` `none` branch is unreachable once
`countRuns` is 1. -/
def parse_filter_string (filter_str : List Char) : Except PyErr JockeyFilter :=
  if countRuns filter_str = 1 then
    match splitFirstRun filter_str with
    | none => .error .assertionError
    | some (before, run, after) => parse_filter_parts before run after
  else .error .assertionError

/-- `utils.check_filter_match` (`src/jockey/utils.py`, lines 110-133): note the
Python lambdas receive `(content, value)`, so `CONTAINS` is
`content in value`. -/
def check_filter_match (jockey_filter : JockeyFilter) (value : List Char) : Bool :=
  match jockey_filter.mode with
  | .EQUALS => jockey_filter.content == value
  | .NOT_EQUALS => jockey_filter.content != value
  | .CONTAINS => isSubstr jockey_filter.content value
  | .NOT_CONTAINS => !(isSubstr jockey_filter.content value)

/-- The truthy-string list of `filters.parse_bool` (`src/jockey/filters.py`,
lines 59-60). -/
def truthyStrings : List (List Char) :=
  [chars ("true"), chars ("t"), chars ("yes"), chars ("y"), chars ("1")]

/-- `filters.parse_bool` (`src/jockey/filters.py`, lines 59-60):
`value.lower() in ['true', 't', 'yes', 'y', '1']`. -/
def parse_bool (value : List Char) : Bool := truthyStrings.contains (pyLower value)

/-- The predicate built by `filters.parse_filter` (`src/jockey/filters.py`,
lines 74-85) for a filter string `leader=<query>` applied to a `Unit`:
the field's annotation is `bool`, so the query is parsed with `parse_bool`
and compared with `equals_filter`. -/
def leader_filter_eval (query : List Char) (leader : Bool) : Bool :=
  leader == parse_bool query

/- ------------------------------------------------------------------ -/
/- Helper lemmas for the lowercasing used by the alias table.          -/
/- ------------------------------------------------------------------ -/

/-- Lowercasing an ASCII uppercase letter gives a character whose code point
is the original plus 32. -/
theorem charOfNat_shift : ∀ n : Nat, n < 91 → 65 ≤ n → (Char.ofNat (n + 32)).toNat = n + 32 := by
  decide

/-- `pyCharLower` is idempotent. -/
theorem pyCharLower_idem (c : Char) : pyCharLower (pyCharLower c) = pyCharLower c := by
  by_cases h : 65 ≤ c.toNat ∧ c.toNat ≤ 90
  · have h1 : pyCharLower c = Char.ofNat (c.toNat + 32) := by
      unfold pyCharLower; rw [if_pos h]
    have ht : (Char.ofNat (c.toNat + 32)).toNat = c.toNat + 32 :=
      charOfNat_shift c.toNat (by omega) h.1
    rw [h1]
    unfold pyCharLower
    rw [if_neg (by rw [ht]; omega)]
  · have h1 : pyCharLower c = c := by unfold pyCharLower; rw [if_neg h]
    rw [h1, h1]

/-- `pyLower` is idempotent. -/
theorem pyLower_idem (s : List Char) : pyLower (pyLower s) = pyLower s := by
  unfold pyLower
  rw [List.map_map]
  have hf : pyCharLower ∘ pyCharLower = pyCharLower := funext pyCharLower_idem
  rw [hf]

/- ------------------------------------------------------------------ -/
/- Claims C6-C10: the filter parsers.                                  -/
/- ------------------------------------------------------------------ -/

/-- C6 (amended): parsing `"foo"` fails with a parse error, and in general a
filter string containing zero or more than one maximal run of operator
characters (`=`, `^`, `~`) is rejected; but `"app=!bar"` contains exactly one
such run (`"="`, since `!` is not an operator character of
`utils.parse_filter_string`), so it parses successfully to the predicate
(APPLICATION, EQUALS, `"!bar"`) instead of failing as the claim states. -/
theorem c6_operator_count_amended :
    (parse_filter_string (chars ("foo"))).isOk = false ∧
    parse_filter_string (chars ("app=!bar")) =
      .ok { obj_type := .APP, mode := .EQUALS, content := chars ("!bar") } ∧
    ∀ s : List Char, countRuns s ≠ 1 → (parse_filter_string s).isOk = false := by
  refine ⟨rfl, rfl, ?_⟩
  intro s h
  unfold parse_filter_string
  rw [if_neg h]
  rfl

/-- C6 counterexample: `"app=!bar"` does not fail; it parses to a predicate,
refuting the claim that a string with the two characters `=` `!` in sequence
is rejected by `utils.parse_filter_string`. -/
theorem c6_app_eq_bang_bar_parses :
    parse_filter_string (chars ("app=!bar")) =
      .ok { obj_type := .APP, mode := .EQUALS, content := chars ("!bar") } := rfl

/-- Witness for `c6_operator_count_amended` at the concrete input `"foo"`
(which has zero operator runs). -/
theorem c6_operator_count_witness :
    countRuns (chars ("foo")) ≠ 1 ∧ (parse_filter_string (chars ("foo"))).isOk = false :=
  ⟨by decide, c6_operator_count_amended.2.2 (chars ("foo")) (by decide)⟩

/-- C7: whenever the text after the (first) operator run is empty or contains
a character of the reserved set `_ : ; \ TAB NL ,`, `utils.parse_filter_string`
fails with a parse error and never returns a predicate. -/
theorem c7_operand_validation (s b r a : List Char)
    (h1 : splitFirstRun s = some (b, r, a))
    (h2 : a = [] ∨ a.any (fun c => char_blacklist.contains c) = true) :
    (parse_filter_string s).isOk = false := by
  unfold parse_filter_string
  by_cases hc : countRuns s = 1
  · rw [if_pos hc, h1]
    show (parse_filter_parts b r a).isOk = false
    unfold parse_filter_parts
    cases hco : convert_object_abbreviation b with
    | none => rfl
    | some ot =>
      show (parse_filter_mode ot r a).isOk = false
      unfold parse_filter_mode
      cases hm : filterModeList.find? (fun m => FilterMode.value m == r) with
      | none => rfl
      | some mode =>
        show (parse_filter_content ot mode a).isOk = false
        unfold parse_filter_content
        rcases h2 with h2 | h2
        · subst h2; rfl
        · by_cases he : a.isEmpty
          · rw [if_pos he]; rfl
          · rw [if_neg he, if_pos h2]; rfl
  · rw [if_neg hc]; rfl

/-- Witness for `c7_operand_validation` at the concrete input `"app="`
(operand empty). -/
theorem c7_operand_validation_witness :
    splitFirstRun (chars ("app=")) = some (chars ("app"), chars ("="), []) ∧
    (parse_filter_string (chars ("app="))).isOk = false :=
  ⟨rfl, c7_operand_validation (chars ("app=")) (chars ("app")) (chars ("=")) [] rfl (Or.inl rfl)⟩

/-- C8: `"app=nova-compute"` parses to (APPLICATION, EQUALS, `"nova-compute"`)
and `"hostname~ubun"` parses to (HOSTNAME, CONTAINS, `"ubun"`). -/
theorem c8_parse_examples :
    parse_filter_string (chars ("app=nova-compute")) =
      .ok { obj_type := .APP, mode := .EQUALS, content := chars ("nova-compute") } ∧
    parse_filter_string (chars ("hostname~ubun")) =
      .ok { obj_type := .HOSTNAME, mode := .CONTAINS, content := chars ("ubun") } :=
  ⟨rfl, rfl⟩

/-- C9: alias resolution is case-insensitive: `convert_object_abbreviation`
gives the same result on a string and on its lowercasing, so the prefix
`"APP"` resolves to the same entity kind as `"app"`. -/
theorem c9_alias_resolution_case_insensitive :
    (∀ s : List Char,
      convert_object_abbreviation s = convert_object_abbreviation (pyLower s)) ∧
    convert_object_abbreviation (chars ("APP")) = some ObjectType.APP ∧
    convert_object_abbreviation (chars ("app")) = some ObjectType.APP := by
  refine ⟨?_, by decide, by decide⟩
  intro s
  unfold convert_object_abbreviation
  rw [pyLower_idem]

/-- C10: `parse_bool` never rejects its input: it returns `true` exactly when
the lowercased operand is one of `true`, `t`, `yes`, `y`, `1`, and `false`
for every other string — including `"false"` and the empty string — so a
filter on the boolean `leader` field with an unrecognized operand silently
compares the field against `False` instead of failing. -/
theorem c10_parse_bool_total :
    (∀ s : List Char, parse_bool s = true ↔ pyLower s ∈ truthyStrings) ∧
    parse_bool (chars ("false")) = false ∧
    parse_bool (chars ("")) = false ∧
    (∀ (q : List Char) (l : Bool), parse_bool q = false →
      leader_filter_eval q l = (l == false)) := by
  refine ⟨?_, rfl, rfl, ?_⟩
  · intro s
    unfold parse_bool
    exact List.elem_iff
  · intro q l h
    unfold leader_filter_eval
    rw [h]

/-- Witness for `c10_parse_bool_total` at the concrete operand `"banana"`. -/
theorem c10_parse_bool_witness :
    parse_bool (chars ("banana")) = false ∧
    leader_filter_eval (chars ("banana")) false = (false == false) :=
  ⟨rfl, c10_parse_bool_total.2.2.2 (chars ("banana")) false rfl⟩

/- ------------------------------------------------------------------ -/
/- The snapshot data model consumed by `utils.py`.                     -/
/- ------------------------------------------------------------------ -/

/-- One unit's entry in an application's `units` mapping.  `machine` models
the optional `"machine"` key; `subordinates` models the optional
`"subordinates"` mapping (`none` = key absent; only its keys, the subordinate
unit names, are ever read by `utils.py`). -/
structure UnitData where
  machine : Option (List Char)
  subordinates : Option (List (List Char))
  deriving DecidableEq, Repr

/-- One application's entry in the snapshot's `applications` mapping.
`subordinate_to` models the optional `"subordinate-to"` key (`none` = key
absent, i.e. the application is principal); `charm` models the optional
`"charm"` key; `units` models the `"units"` mapping. -/
structure AppData where
  subordinate_to : Option (List (List Char))
  charm : Option (List Char)
  units : List (List Char × UnitData)
  deriving DecidableEq, Repr

/-- One container's entry in a machine's `containers` mapping. -/
structure ContainerData where
  hostname : List Char
  ip_addresses : List (List Char)
  deriving DecidableEq, Repr

/-- One machine's entry in the snapshot's `machines` mapping. -/
structure MachineData where
  hostname : List Char
  ip_addresses : List (List Char)
  containers : List (List Char × ContainerData)
  deriving DecidableEq, Repr

/-- A Juju status snapshot, restricted to the keys `utils.py` reads.  The two
top-level keys are always present (spec section 6). -/
structure Status where
  applications : List (List Char × AppData)
  machines : List (List Char × MachineData)
  deriving DecidableEq, Repr

/-- `utils.is_app_principal` (`src/jockey/utils.py`, lines 272-289):
`"subordinate-to" not in status["applications"][app_name]`; a missing
application raises `KeyError`. -/
def is_app_principal (status : Status) (app_name : List Char) : Except PyErr Bool :=
  match pyGet status.applications app_name with
  | none => .error .keyError
  | some ad => .ok ad.subordinate_to.isNone

/-- `utils.get_units` (`src/jockey/utils.py`, lines 184-214): for each
principal application, yield each unit name followed by its subordinates
(when the `"subordinates"` key is present).  Applications and units are
visited in insertion order; dict keys are unique, so the pair's own data is
the dict value. -/
def get_units (status : Status) : List (List Char) :=
  status.applications.flatMap (fun p =>
    match p.2.subordinate_to with
    | some _ => []
    | none => p.2.units.flatMap (fun q => q.1 :: q.2.subordinates.getD []))

/-- `utils.unit_to_application` (`src/jockey/utils.py`, lines 367-387):
`unit_name.split("/")[0]` if it is a key of `applications`, else `None`. -/
def unit_to_application (status : Status) (unit_name : List Char) : Option (List Char) :=
  let app_name := (pySplit '/' unit_name).headD []
  if (pyGet status.applications app_name).isSome then some app_name else none

/-- Inner loop of `utils.subordinate_unit_to_principal_unit` (lines 418-420):
scan a principal application's units for one whose `"subordinates"` mapping
contains the unit; a unit entry without a `"subordinates"` key raises
`KeyError`. -/
def findPrincipalInUnits (unit_name : List Char) :
    List (List Char × UnitData) → Except PyErr (Option (List Char))
  | [] => .ok none
  | (p_unit, ud) :: rest =>
    match ud.subordinates with
    | none => .error .keyError
    | some subs =>
      if subs.contains unit_name then .ok (some p_unit)
      else findPrincipalInUnits unit_name rest

/-- Outer loop of `utils.subordinate_unit_to_principal_unit` (lines 413-420):
scan the `subordinate-to` list, skipping non-principal applications.
`is_app_principal` raises `KeyError` for an unknown application name; for a
known one the body's two dict lookups of `p_app` return the same entry
(dict keys are unique), collapsed here into a single `pyGet`. -/
def scanPrincipalApps (status : Status) (unit_name : List Char) :
    List (List Char) → Except PyErr (Option (List Char))
  | [] => .ok none
  | p_app :: rest =>
    match pyGet status.applications p_app with
    | none => .error .keyError
    | some pad =>
      if pad.subordinate_to.isSome then scanPrincipalApps status unit_name rest
      else
        match findPrincipalInUnits unit_name pad.units with
        | .error e => .error e
        | .ok (some r) => .ok (some r)
        | .ok none => scanPrincipalApps status unit_name rest

/-- `utils.subordinate_unit_to_principal_unit` (`src/jockey/utils.py`, lines
390-421).  If the unit's application is principal the unit itself is
returned; otherwise the principal applications it is subordinate-to are
scanned; when the scan finds nothing the Python function falls off the end
and returns `None`, modelled as `.ok none`.  A unit name whose prefix is not
a known application makes `is_app_principal(status, None)` raise `KeyError`. -/
def subordinate_unit_to_principal_unit (status : Status) (unit_name : List Char) :
    Except PyErr (Option (List Char)) :=
  match unit_to_application status unit_name with
  | none => .error .keyError
  | some app =>
    match pyGet status.applications app with
    | none => .error .keyError
    | some ad =>
      match ad.subordinate_to with
      | none => .ok (some unit_name)
      | some ps => scanPrincipalApps status unit_name ps

/-- `utils.unit_to_machine` (`src/jockey/utils.py`, lines 423-443): resolve
the principal unit first, then read that principal's `"machine"` key.  A
`None` principal makes `unit_to_application` call `None.split`, raising
`AttributeError`; missing dict keys raise `KeyError`. -/
def unit_to_machine (status : Status) (unit_name : List Char) : Except PyErr (List Char) :=
  match subordinate_unit_to_principal_unit status unit_name with
  | .error e => .error e
  | .ok none => .error .attributeError
  | .ok (some principal_unit_name) =>
    match unit_to_application status principal_unit_name with
    | none => .error .keyError
    | some app =>
      match pyGet status.applications app with
      | none => .error .keyError
      | some ad =>
        match pyGet ad.units principal_unit_name with
        | none => .error .keyError
        | some ud =>
          match ud.machine with
          | none => .error .keyError
          | some m => .ok m

/-- `utils.machine_to_ips` (`src/jockey/utils.py`, lines 482-501), with the
generator fully consumed: `status["machines"][machine]["ip-addresses"]`.
Container ids are NOT resolved through the owning machine's `containers`
mapping, so a container id absent from the top-level `machines` mapping
raises `KeyError` (at the first iteration of the generator). -/
def machine_to_ips (status : Status) (machine : List Char) :
    Except PyErr (List (List Char)) :=
  match pyGet status.machines machine with
  | none => .error .keyError
  | some md => .ok md.ip_addresses

/-- `utils.machine_to_hostname` (`src/jockey/utils.py`, lines 525-546): if the
id contains `"lxd"` it is split on `/` into exactly three parts and resolved
through the physical machine's `containers` mapping; otherwise it is looked
up in the top-level `machines` mapping. -/
def machine_to_hostname (status : Status) (machine : List Char) : Except PyErr (List Char) :=
  if isSubstr (chars ("lxd")) machine then
    match pySplit '/' machine with
    | [physical_machine, _, _] =>
      match pyGet status.machines physical_machine with
      | none => .error .keyError
      | some md =>
        match pyGet md.containers machine with
        | none => .error .keyError
        | some cd => .ok cd.hostname
    | _ => .error .valueError
  else
    match pyGet status.machines machine with
    | none => .error .keyError
    | some md => .ok md.hostname

/-- `utils.application_to_charm` (`src/jockey/utils.py`, lines 317-336):
`status["applications"][app_name]["charm"]` with `KeyError` caught and turned
into `None`.  The argument is the (possibly `None`) result of
`unit_to_application`, as at the call site in `filter_units`. -/
def application_to_charm (status : Status) (app_name : Option (List Char)) :
    Option (List Char) :=
  match app_name with
  | none => none
  | some a =>
    match pyGet status.applications a with
    | none => none
    | some ad => ad.charm

/- ------------------------------------------------------------------ -/
/- The query engine: `utils.filter_units`.                             -/
/- ------------------------------------------------------------------ -/

/-- `check_filter_match` applied to a possibly-`None` value, as in
`filter_units`'s application/charm checks: Python `content == None` is
`False`, `content != None` is `True`, and `content in None` raises
`TypeError`. -/
def checkFilterMatchOpt (f : JockeyFilter) (value : Option (List Char)) : Except PyErr Bool :=
  match value with
  | some v => .ok (check_filter_match f v)
  | none =>
    match f.mode with
    | .EQUALS => .ok false
    | .NOT_EQUALS => .ok true
    | _ => .error .typeError

/-- Python `all(check_filter_match(f, value) for f in fs)` over a
possibly-`None` value, with `all`'s short-circuit (a later `TypeError` is
not raised once some filter returned `False`). -/
def allMatchOpt : List JockeyFilter → Option (List Char) → Except PyErr Bool
  | [], _ => .ok true
  | f :: rest, value =>
    match checkFilterMatchOpt f value with
    | .error e => .error e
    | .ok false => .ok false
    | .ok true => allMatchOpt rest value

/-- The application/charm block of `utils.filter_units` (lines 603-617),
entered only when an application or charm filter is present. -/
def appCharmStage (status : Status) (app_filters charm_filters : List JockeyFilter)
    (unit : List Char) : Except PyErr Bool :=
  if app_filters.isEmpty && charm_filters.isEmpty then .ok true
  else
    match allMatchOpt app_filters (unit_to_application status unit) with
    | .error e => .error e
    | .ok false => .ok false
    | .ok true =>
      allMatchOpt charm_filters
        (application_to_charm status (unit_to_application status unit))

/-- Python `any(check_filter_match(f, ip) for ip in ips)` where `ips` is a
one-shot generator: consume elements until the first match, returning the
REMAINING elements (`none` when the generator is exhausted without a match). -/
def anyConsume (f : JockeyFilter) : List (List Char) → Option (List (List Char))
  | [] => none
  | ip :: rest => if check_filter_match f ip then some rest else anyConsume f rest

/-- The IP check of `utils.filter_units` (lines 642-647):
`all(any(check_filter_match(i_filter, ip) for ip in ips) for i_filter in
ip_filters)` where `ips` is a single generator shared by every `any()` call,
so each filter resumes consuming where the previous one stopped. -/
def allAnyGen : List JockeyFilter → List (List Char) → Bool
  | [], _ => true
  | f :: rest, ips =>
    match anyConsume f ips with
    | none => false
    | some remaining => allAnyGen rest remaining

/-- The body of `utils.filter_units`'s per-unit loop (lines 596-649):
`.ok none` models `continue` (unit filtered out), `.ok (some unit)` models
`yield unit`, and `.error` models an exception escaping the generator.  Note
from the source: `machine_to_hostname` is called whenever any
machine/ip/hostname filter exists (even with no hostname filters), while the
`machine_to_ips` generator is only consumed when an IP filter exists. -/
def processUnit (status : Status)
    (unit_filters app_filters charm_filters machine_filters hostname_filters
      ip_filters : List JockeyFilter)
    (unit : List Char) : Except PyErr (Option (List Char)) :=
  if !(unit_filters.all (fun f => check_filter_match f unit)) then .ok none
  else
    match appCharmStage status app_filters charm_filters unit with
    | .error e => .error e
    | .ok false => .ok none
    | .ok true =>
      if machine_filters.isEmpty && ip_filters.isEmpty && hostname_filters.isEmpty then
        .ok (some unit)
      else
        match unit_to_machine status unit with
        | .error e => .error e
        | .ok machine =>
          if !(machine_filters.all (fun f => check_filter_match f machine)) then .ok none
          else
            match machine_to_hostname status machine with
            | .error e => .error e
            | .ok hostname =>
              if !(hostname_filters.all (fun f => check_filter_match f hostname)) then
                .ok none
              else if ip_filters.isEmpty then .ok (some unit)
              else
                match machine_to_ips status machine with
                | .error e => .error e
                | .ok ips => if allAnyGen ip_filters ips then .ok (some unit) else .ok none

/-- Consume the `filter_units` generator: process each unit of the base
enumeration in order, collecting the yielded units; the first exception
aborts the whole query. -/
def runUnits (p : List Char → Except PyErr (Option (List Char))) :
    List (List Char) → Except PyErr (List (List Char))
  | [] => .ok []
  | u :: rest =>
    match p u with
    | .error e => .error e
    | .ok none => runUnits p rest
    | .ok (some x) =>
      match runUnits p rest with
      | .error e => .error e
      | .ok l => .ok (x :: l)

/-- `utils.filter_units` (`src/jockey/utils.py`, lines 570-649), fully
consumed: partition the filters by object type (preserving order), then
evaluate every unit of `get_units` against them. -/
def filter_units (status : Status) (filters : List JockeyFilter) :
    Except PyErr (List (List Char)) :=
  runUnits
    (processUnit status
      (filters.filter (fun f => f.obj_type == .UNIT))
      (filters.filter (fun f => f.obj_type == .APP))
      (filters.filter (fun f => f.obj_type == .CHARM))
      (filters.filter (fun f => f.obj_type == .MACHINE))
      (filters.filter (fun f => f.obj_type == .HOSTNAME))
      (filters.filter (fun f => f.obj_type == .IP)))
    (get_units status)

/-- The filtering step of `src/jockey/__main__.py`
(`[obj for obj in objects if all([f(obj) for f in args.filters])]`), generic
in the collected object type. -/
def filter_objects {α : Type} (objects : List α) (fs : List (α → Bool)) : List α :=
  objects.filter (fun obj => fs.all (fun f => f obj))

/- ------------------------------------------------------------------ -/
/- Concrete snapshots used as witnesses and counterexamples.           -/
/- ------------------------------------------------------------------ -/

/-- A snapshot with one machine `0` (one IP, `10.0.0.5`) and one principal
application `ubuntu` with a single unit `ubuntu/0` on machine `0`. -/
def stOneUnit : Status :=
  { applications :=
      [(chars ("ubuntu"),
        { subordinate_to := none,
          charm := some (chars ("ubuntu")),
          units := [(chars ("ubuntu/0"),
                     { machine := some (chars ("0")), subordinates := none })] })],
    machines :=
      [(chars ("0"),
        { hostname := chars ("juju-abc"),
          ip_addresses := [chars ("10.0.0.5")],
          containers := [] })] }

/-- An IP filter matching any IP containing `"10"`. -/
def ipFilter10 : JockeyFilter := { obj_type := .IP, mode := .CONTAINS, content := chars ("10") }

/-- An IP filter matching any IP containing `"5"`. -/
def ipFilter5 : JockeyFilter := { obj_type := .IP, mode := .CONTAINS, content := chars ("5") }

/-- C1: the conjunction-over-any law FAILS in `filter_units` when two IP
predicates target the same machine.  On `stOneUnit`, each of the two IP
predicates individually matches the machine's only IP `10.0.0.5` (and each
single-predicate query returns `ubuntu/0`), yet the combined query returns
the empty list: the first `any()` call exhausts the one-shot
`machine_to_ips` generator, so the second predicate is evaluated over no
values and is `False`.  The spec's contract (AND across predicates, OR
across a machine's IP set) requires `[ubuntu/0]` here. -/
theorem c1_ip_conjunction_generator_bug :
    filter_units stOneUnit [ipFilter10, ipFilter5] = .ok [] ∧
    filter_units stOneUnit [ipFilter10] = .ok [chars ("ubuntu/0")] ∧
    filter_units stOneUnit [ipFilter5] = .ok [chars ("ubuntu/0")] ∧
    check_filter_match ipFilter10 (chars ("10.0.0.5")) = true ∧
    check_filter_match ipFilter5 (chars ("10.0.0.5")) = true ∧
    machine_to_ips stOneUnit (chars ("0")) = .ok [chars ("10.0.0.5")] ∧
    get_units stOneUnit = [chars ("ubuntu/0")] :=
  ⟨rfl, rfl, rfl, rfl, rfl, rfl, rfl⟩

/-- With no filters at all, every unit passes every stage of the per-unit
loop and is yielded unchanged. -/
theorem processUnit_no_filters (status : Status) (u : List Char) :
    processUnit status [] [] [] [] [] [] u = .ok (some u) := rfl

/-- If the per-unit function yields every unit, consuming the generator
returns the base enumeration unchanged. -/
theorem runUnits_id (p : List Char → Except PyErr (Option (List Char)))
    (hp : ∀ u, p u = .ok (some u)) : ∀ l, runUnits p l = .ok l := by
  intro l
  induction l with
  | nil => rfl
  | cons u rest ih => simp [runUnits, hp u, ih]

/-- C5: querying with an empty predicate list returns every entity of the
requested kind unfiltered, in the base enumeration's (snapshot insertion)
order: `filter_units` returns exactly `get_units`, and the `__main__` list
comprehension returns the collector's list unchanged for every kind. -/
theorem c5_empty_filters_return_all_units :
    (∀ status : Status, filter_units status [] = .ok (get_units status)) ∧
    (∀ (α : Type) (objects : List α), filter_objects objects [] = objects) := by
  constructor
  · intro status
    unfold filter_units
    exact runUnits_id _ (fun u => rfl) (get_units status)
  · intro α objects
    unfold filter_objects
    simp


/- ------------------------------------------------------------------ -/
/- Claim C2: principal-unit resolution.                                -/
/- ------------------------------------------------------------------ -/

/-- `p_app` is a principal application one of whose units `p_unit` lists
`u` among its subordinates. -/
def listsPrincipal (status : Status) (p_app p_unit u : List Char) : Prop :=
  ∃ pad ud subs,
    pyGet status.applications p_app = some pad ∧
    pad.subordinate_to = none ∧
    (p_unit, ud) ∈ pad.units ∧
    ud.subordinates = some subs ∧
    subs.contains u = true

/-- If the unit scan returns a principal unit, that unit's entry lists the
sought unit among its subordinates. -/
theorem findPrincipalInUnits_some {u r : List Char} :
    ∀ {units : List (List Char × UnitData)},
      findPrincipalInUnits u units = .ok (some r) →
      ∃ ud subs, (r, ud) ∈ units ∧ ud.subordinates = some subs ∧ subs.contains u = true := by
  intro units
  induction units with
  | nil => intro h; simp [findPrincipalInUnits] at h
  | cons hd rest ih =>
    obtain ⟨p_unit, ud⟩ := hd
    intro h
    unfold findPrincipalInUnits at h
    split at h
    next hs => simp at h
    next subs hs =>
      split at h
      next hc =>
        obtain rfl : p_unit = r := by simpa using h
        exact ⟨ud, subs, List.mem_cons_self _ _, hs, hc⟩
      next hc =>
        obtain ⟨ud2, subs2, hmem, hs2, hc2⟩ := ih h
        exact ⟨ud2, subs2, List.mem_cons_of_mem _ hmem, hs2, hc2⟩

/-- If the unit scan completes without finding anything (and without a
`KeyError`), no unit entry lists the sought unit. -/
theorem findPrincipalInUnits_none {u : List Char} :
    ∀ {units : List (List Char × UnitData)},
      findPrincipalInUnits u units = .ok none →
      ∀ p ud, (p, ud) ∈ units → ∀ subs, ud.subordinates = some subs →
        subs.contains u = false := by
  intro units
  induction units with
  | nil => intro _ p ud hmem; simp at hmem
  | cons hd rest ih =>
    obtain ⟨p_unit, ud0⟩ := hd
    intro h p ud hmem subs hsubs
    unfold findPrincipalInUnits at h
    split at h
    next hs => simp at h
    next subs0 hs =>
      split at h
      next hc => simp at h
      next hc =>
        rcases List.mem_cons.mp hmem with heq | hmem2
        · injection heq with h1 h2
          subst h1
          subst h2
          rw [hs] at hsubs
          obtain rfl : subs0 = subs := by simpa using hsubs
          simpa using hc
        · exact ih h p ud hmem2 subs hsubs

/-- If the subordinate-to scan returns a principal unit, some application in
the scanned list is principal and has a unit entry listing the sought unit. -/
theorem scanPrincipalApps_some {status : Status} {u r : List Char} :
    ∀ {ps : List (List Char)},
      scanPrincipalApps status u ps = .ok (some r) →
      ∃ p, p ∈ ps ∧ listsPrincipal status p r u := by
  intro ps
  induction ps with
  | nil => intro h; simp [scanPrincipalApps] at h
  | cons p_app rest ih =>
    intro h
    unfold scanPrincipalApps at h
    split at h
    next hg => simp at h
    next pad hg =>
      split at h
      next hsome =>
        obtain ⟨p, hmem, hl⟩ := ih h
        exact ⟨p, List.mem_cons_of_mem _ hmem, hl⟩
      next hsome =>
        have hsub : pad.subordinate_to = none := Option.not_isSome_iff_eq_none.mp hsome
        split at h
        next e he => simp at h
        next r0 hf =>
          obtain rfl : r0 = r := by simpa using h
          obtain ⟨ud, subs, hmem, hs, hc⟩ := findPrincipalInUnits_some hf
          exact ⟨p_app, List.mem_cons_self _ _, pad, ud, subs, hg, hsub, hmem, hs, hc⟩
        next hf =>
          obtain ⟨p, hmem, hl⟩ := ih h
          exact ⟨p, List.mem_cons_of_mem _ hmem, hl⟩

/-- If the subordinate-to scan completes with `None` (no exception), then no
application in the scanned list has a principal unit listing the sought
unit. -/
theorem scanPrincipalApps_none {status : Status} {u : List Char} :
    ∀ {ps : List (List Char)},
      scanPrincipalApps status u ps = .ok none →
      ∀ p, p ∈ ps → ∀ q, ¬ listsPrincipal status p q u := by
  intro ps
  induction ps with
  | nil => intro _ p hmem; simp at hmem
  | cons p_app rest ih =>
    intro h p hmem q hl
    unfold scanPrincipalApps at h
    split at h
    next hg => simp at h
    next pad hg =>
      split at h
      next hsome =>
        rcases List.mem_cons.mp hmem with rfl | hmem2
        · obtain ⟨pad2, ud, subs, hg2, hsub2, _, _, _⟩ := hl
          rw [hg] at hg2
          obtain rfl : pad = pad2 := by simpa using hg2
          rw [hsub2] at hsome
          simp at hsome
        · exact ih h p hmem2 q hl
      next hsome =>
        split at h
        next e he => simp at h
        next r0 hf => simp at h
        next hf =>
          rcases List.mem_cons.mp hmem with rfl | hmem2
          · obtain ⟨pad2, ud, subs, hg2, hsub2, hmemu, hsubs, hc⟩ := hl
            rw [hg] at hg2
            obtain rfl : pad = pad2 := by simpa using hg2
            have hfalse := findPrincipalInUnits_none hf q ud hmemu subs hsubs
            rw [hfalse] at hc
            exact Bool.noConfusion hc
          · exact ih h p hmem2 q hl

/-- C2 (amended): if the unit's application is principal,
`subordinate_unit_to_principal_unit` returns the unit itself; if it is
subordinate, the function scans the subordinate-to list and any unit it
returns is a principal unit listing this unit among its subordinates; and
when NO such principal unit exists the function returns Python `None`
(modelled `.ok none`) — an ordinary not-found result — rather than
signalling a data-integrity failure as the claim states. -/
theorem c2_principal_resolution_amended
    (status : Status) (u a : List Char) (ad : AppData)
    (h1 : unit_to_application status u = some a)
    (h2 : pyGet status.applications a = some ad) :
    (ad.subordinate_to = none →
      subordinate_unit_to_principal_unit status u = .ok (some u)) ∧
    (∀ ps, ad.subordinate_to = some ps →
      subordinate_unit_to_principal_unit status u = scanPrincipalApps status u ps ∧
      (∀ r, subordinate_unit_to_principal_unit status u = .ok (some r) →
        ∃ p, p ∈ ps ∧ listsPrincipal status p r u) ∧
      (subordinate_unit_to_principal_unit status u = .ok none →
        ∀ p, p ∈ ps → ∀ q, ¬ listsPrincipal status p q u)) := by
  constructor
  · intro hnone
    simp only [subordinate_unit_to_principal_unit, h1, h2, hnone]
  · intro ps hps
    have hdef : subordinate_unit_to_principal_unit status u = scanPrincipalApps status u ps := by
      simp only [subordinate_unit_to_principal_unit, h1, h2, hps]
    refine ⟨hdef, ?_, ?_⟩
    · intro r hr
      rw [hdef] at hr
      exact scanPrincipalApps_some hr
    · intro hnone p hmem q
      rw [hdef] at hnone
      exact scanPrincipalApps_none hnone p hmem q

/-- A snapshot with principal `ubuntu` (unit `ubuntu/0`, which lists `ntp/0`
as subordinate) and subordinate application `ntp` attached to `ubuntu`. -/
def stSubordinate : Status :=
  { applications :=
      [(chars ("ubuntu"),
        { subordinate_to := none,
          charm := some (chars ("ubuntu")),
          units := [(chars ("ubuntu/0"),
                     { machine := some (chars ("0")),
                       subordinates := some [chars ("ntp/0")] })] }),
       (chars ("ntp"),
        { subordinate_to := some [chars ("ubuntu")],
          charm := some (chars ("ntp")),
          units := [] })],
    machines :=
      [(chars ("0"),
        { hostname := chars ("juju-abc"),
          ip_addresses := [chars ("10.0.0.5")],
          containers := [] })] }

/-- Witness for `c2_principal_resolution_amended` on `stSubordinate`: the
principal unit `ubuntu/0` resolves to itself, and the subordinate unit
`ntp/0` goes through the subordinate-to scan. -/
theorem c2_principal_resolution_witness :
    subordinate_unit_to_principal_unit stSubordinate (chars ("ubuntu/0")) =
      .ok (some (chars ("ubuntu/0"))) ∧
    subordinate_unit_to_principal_unit stSubordinate (chars ("ntp/0")) =
      scanPrincipalApps stSubordinate (chars ("ntp/0")) [chars ("ubuntu")] :=
  ⟨(c2_principal_resolution_amended stSubordinate (chars ("ubuntu/0")) (chars ("ubuntu"))
      _ rfl rfl).1 rfl,
   ((c2_principal_resolution_amended stSubordinate (chars ("ntp/0")) (chars ("ntp"))
      _ rfl rfl).2 [chars ("ubuntu")] rfl).1⟩

/-- Like `stSubordinate`, but `ubuntu/0`'s subordinates mapping is empty, so
the subordinate unit `ntp/0` has no principal unit listing it. -/
def stNoPrincipal : Status :=
  { applications :=
      [(chars ("ubuntu"),
        { subordinate_to := none,
          charm := some (chars ("ubuntu")),
          units := [(chars ("ubuntu/0"),
                     { machine := some (chars ("0")),
                       subordinates := some [] })] }),
       (chars ("ntp"),
        { subordinate_to := some [chars ("ubuntu")],
          charm := some (chars ("ntp")),
          units := [] })],
    machines :=
      [(chars ("0"),
        { hostname := chars ("juju-abc"),
          ip_addresses := [chars ("10.0.0.5")],
          containers := [] })] }

/-- C2 counterexample: on `stNoPrincipal` the subordinate unit `ntp/0` has no
principal unit listing it, and `subordinate_unit_to_principal_unit` returns
Python `None` (`.ok none`) — a normal not-found value, not the
data-integrity failure the claim says is signalled. -/
theorem c2_missing_principal_returns_none :
    subordinate_unit_to_principal_unit stNoPrincipal (chars ("ntp/0")) = .ok none := rfl

/- ------------------------------------------------------------------ -/
/- Claim C3: missing machine ids surface as exceptions.                -/
/- ------------------------------------------------------------------ -/

/-- If the per-unit evaluation fails for any unit of the base enumeration,
consuming the query generator fails: the query never quietly returns a
smaller list. -/
theorem runUnits_mem_error (p : List Char → Except PyErr (Option (List Char)))
    (l : List (List Char)) (u : List Char) (hu : u ∈ l)
    (hp : (p u).isOk = false) : (runUnits p l).isOk = false := by
  induction l with
  | nil => simp at hu
  | cons v rest ih =>
    unfold runUnits
    rcases List.mem_cons.mp hu with rfl | hmem
    · cases hpv : p u with
      | error e => rfl
      | ok o => rw [hpv] at hp; simp [Except.isOk, Except.toBool] at hp
    · cases hpv : p v with
      | error e => rfl
      | ok o =>
        cases o with
        | none => exact ih hmem
        | some x =>
          have hr := ih hmem
          cases hrv : runUnits p rest with
          | error e => rfl
          | ok l2 => rw [hrv] at hr; simp [Except.isOk, Except.toBool] at hr

/-- If some machine-dependent filter is present, the unit survives the
earlier stages, and the unit's (non-container) machine id is absent from the
`machines` mapping, then the per-unit evaluation raises `KeyError` (inside
`machine_to_hostname`, which `filter_units` calls whenever a machine, IP or
hostname filter exists). -/
theorem processUnit_missing_machine (status : Status)
    (unit_filters app_filters charm_filters machine_filters hostname_filters
      ip_filters : List JockeyFilter)
    (u m : List Char)
    (hneed : (machine_filters.isEmpty && ip_filters.isEmpty &&
      hostname_filters.isEmpty) = false)
    (hu : unit_filters.all (fun f => check_filter_match f u) = true)
    (hac : appCharmStage status app_filters charm_filters u = .ok true)
    (hm : unit_to_machine status u = .ok m)
    (hmf : machine_filters.all (fun f => check_filter_match f m) = true)
    (hlxd : isSubstr (chars ("lxd")) m = false)
    (hmiss : pyGet status.machines m = none) :
    (processUnit status unit_filters app_filters charm_filters machine_filters
      hostname_filters ip_filters u).isOk = false := by
  have hhost : machine_to_hostname status m = .error .keyError := by
    simp [machine_to_hostname, hlxd, hmiss]
  simp [processUnit, Except.isOk, Except.toBool, hu, hac, hneed, hm, hmf, hhost]

/-- C3: a unit whose (resolved, non-container) machine id is missing from the
snapshot's `machines` mapping makes any query that must resolve that machine
(i.e. any query with a machine, IP or hostname filter that the unit's earlier
filter stages do not already reject) fail with a surfaced exception —
`filter_units` never returns an `ok` (possibly smaller) list in that case. -/
theorem c3_missing_machine_raises :
    ∀ (status : Status) (fs : List JockeyFilter) (u m : List Char),
      u ∈ get_units status →
      ((fs.filter (fun f => f.obj_type == .MACHINE)).isEmpty &&
       (fs.filter (fun f => f.obj_type == .IP)).isEmpty &&
       (fs.filter (fun f => f.obj_type == .HOSTNAME)).isEmpty) = false →
      (fs.filter (fun f => f.obj_type == .UNIT)).all
        (fun f => check_filter_match f u) = true →
      appCharmStage status (fs.filter (fun f => f.obj_type == .APP))
        (fs.filter (fun f => f.obj_type == .CHARM)) u = .ok true →
      unit_to_machine status u = .ok m →
      (fs.filter (fun f => f.obj_type == .MACHINE)).all
        (fun f => check_filter_match f m) = true →
      isSubstr (chars ("lxd")) m = false →
      pyGet status.machines m = none →
      (filter_units status fs).isOk = false := by
  intro status fs u m hu hneed huf hac hm hmf hlxd hmiss
  unfold filter_units
  exact runUnits_mem_error _ _ u hu
    (processUnit_missing_machine status _ _ _ _ _ _ u m hneed huf hac hm hmf hlxd hmiss)

/-- A snapshot whose only unit `ubuntu/0` references machine id `1`, which is
absent from the `machines` mapping (only machine `0` exists). -/
def stBrokenMachine : Status :=
  { applications :=
      [(chars ("ubuntu"),
        { subordinate_to := none,
          charm := some (chars ("ubuntu")),
          units := [(chars ("ubuntu/0"),
                     { machine := some (chars ("1")), subordinates := none })] })],
    machines :=
      [(chars ("0"),
        { hostname := chars ("juju-abc"),
          ip_addresses := [],
          containers := [] })] }

/-- A hostname filter requiring machine resolution. -/
def hostnameFilterX : JockeyFilter :=
  { obj_type := .HOSTNAME, mode := .CONTAINS, content := chars ("x") }

/-- Witness for `c3_missing_machine_raises`: querying `stBrokenMachine` with
one hostname filter fails instead of returning a list. -/
theorem c3_missing_machine_raises_witness :
    (filter_units stBrokenMachine [hostnameFilterX]).isOk = false :=
  c3_missing_machine_raises stBrokenMachine [hostnameFilterX]
    (chars ("ubuntu/0")) (chars ("1")) (by decide) rfl rfl rfl rfl rfl rfl rfl

/- ------------------------------------------------------------------ -/
/- Claim C4: container id resolution.                                  -/
/- ------------------------------------------------------------------ -/

/-- C4 (amended): `machine_to_hostname` resolves a container id (one whose
id contains `lxd`, splitting into three parts) through the owning physical
machine's `containers` mapping and returns the container's own hostname —
but `machine_to_ips` performs no such resolution: it reads only the
top-level `machines` mapping, so for any id absent from it (in particular a
container id) it raises `KeyError` instead of returning the container's IP
list as the claim states. -/
theorem c4_container_resolution_amended :
    (∀ (status : Status) (m p x c : List Char) (md : MachineData) (cd : ContainerData),
      isSubstr (chars ("lxd")) m = true →
      pySplit '/' m = [p, x, c] →
      pyGet status.machines p = some md →
      pyGet md.containers m = some cd →
      machine_to_hostname status m = .ok cd.hostname) ∧
    (∀ (status : Status) (m : List Char),
      pyGet status.machines m = none →
      machine_to_ips status m = .error .keyError) := by
  constructor
  · intro status m p x c md cd hlxd hsplit hmd hcd
    simp only [machine_to_hostname, hlxd, hsplit, hmd, hcd, if_true]
  · intro status m hmiss
    simp only [machine_to_ips, hmiss]

/-- A snapshot with physical machine `0` owning container `0/lxd/0`; the
container id is present only in machine `0`'s `containers` mapping, not in
the top-level `machines` mapping. -/
def stContainer : Status :=
  { applications := [],
    machines :=
      [(chars ("0"),
        { hostname := chars ("phys-host"),
          ip_addresses := [chars ("10.0.0.1")],
          containers :=
            [(chars ("0/lxd/0"),
              { hostname := chars ("container-host"),
                ip_addresses := [chars ("10.0.0.2")] })] })] }

/-- C4 counterexample: on `stContainer` the container id `0/lxd/0` resolves
through `machine_to_hostname` (returning the container's own hostname), but
`machine_to_ips` fails on the very same id instead of returning the
container's IP list, refuting the claim that BOTH functions succeed on
container ids. -/
theorem c4_container_ips_keyerror :
    machine_to_hostname stContainer (chars ("0/lxd/0")) = .ok (chars ("container-host")) ∧
    (machine_to_ips stContainer (chars ("0/lxd/0"))).isOk = false :=
  ⟨rfl, rfl⟩

/-- Witness for `c4_container_resolution_amended` at the container id
`0/lxd/0` of `stContainer`. -/
theorem c4_container_resolution_witness :
    machine_to_hostname stContainer (chars ("0/lxd/0")) = .ok (chars ("container-host")) ∧
    machine_to_ips stContainer (chars ("0/lxd/0")) = .error .keyError :=
  ⟨c4_container_resolution_amended.1 stContainer (chars ("0/lxd/0"))
      (chars ("0")) (chars ("lxd")) (chars ("0")) _ _ rfl rfl rfl rfl,
   c4_container_resolution_amended.2 stContainer (chars ("0/lxd/0")) rfl⟩
